import Mathlib

/-!
Verification of the Happy Solar reporting dashboards.

Shallow embedding of the aggregation logic of `src/kixie_dashboard.py`
(the `update_dashboard` callback), the grouped-count logic shared with
`src/sales_dashboard.py`, and the `/api/stats` route of `src/api/index.py`.

A fetched call record becomes a `CallRow`; a pandas DataFrame becomes a
`List CallRow` (row order = fetch order).  Column values that can be
missing (NaN) are `Option`s; the `id` column is total because
`fetch_calls` assigns `doc.id` to every row it produces.  Percent
formatting with one decimal place is modelled exactly over rationals
scaled to tenths, rounding ties to even as the float formatter does on
exact values.
-/

namespace HappySolar

/-- One row of the calls table, as built by `fetch_calls` in
`src/kixie_dashboard.py`: `id` is always present (set from `doc.id`);
`agent`, `outcome` may be missing (NaN); `duration` is the numeric
call duration in seconds (NaN modelled as `none`); `date` is the
derived event date (`none` when `callDate` was missing or unparsable),
encoded as an integer day. -/
structure CallRow where
  id : String
  agent : Option String
  outcome : Option String
  duration : Option Nat
  date : Option Int
  deriving DecidableEq

/-- The literal outcome labels counted as connections
(`connected_outcomes` in `update_dashboard`, line 194). -/
def connectedOutcomes : List String := ["connected", "answered", "success"]

/-- Row count of a table (`len(filtered_df)`, line 191). -/
def totalCount (df : List CallRow) : Nat := df.length

/-- Count of rows whose value in a column is a member of a predicate
set (`filtered_df[filtered_df['outcome'].isin(connected_outcomes)].shape[0]`,
line 195): a missing (NaN) value is never a member. -/
def countMatching (df : List CallRow) (col : CallRow → Option String)
    (pset : List String) : Nat :=
  (df.filter (fun r => match col r with
    | some v => pset.contains v
    | none => false)).length

/-- Rounding of `n / d * 100` to tenths of a percent: the integer
nearest to `n * 1000 / d`, ties to even (the behaviour of `f"{x:.1f}"`
on exactly representable values). -/
def roundTenths (n d : Nat) : Nat :=
  if 2 * (n * 1000 % d) < d then n * 1000 / d
  else if d < 2 * (n * 1000 % d) then n * 1000 / d + 1
  else if (n * 1000 / d) % 2 = 0 then n * 1000 / d else n * 1000 / d + 1

/-- One-decimal percent string, the `f"{(n/d*100):.1f}%"` expression of
lines 197 and 234. -/
def fmtPct (n d : Nat) : String :=
  toString (roundTenths n d / 10) ++ "." ++ toString (roundTenths n d % 10) ++ "%"

/-- The rate shape used at both call sites (lines 197 and 233-236):
format when the denominator is positive, literal `"0%"` otherwise —
the division is never evaluated with a zero denominator because it sits
in the taken-only-when-positive branch of the conditional expression. -/
def rate (n d : Nat) : String :=
  if 0 < d then fmtPct n d else "0%"

/-- Dashboard-wide Total Talk Time KPI formatter (lines 199-205):
`talk_minutes = int(total_duration/60)`, branch on `talk_minutes > 60`. -/
def talkTimeKPI (s : Nat) : String :=
  if 60 < s / 60 then toString (s / 60 / 60) ++ "h " ++ toString (s / 60 % 60) ++ "m"
  else toString (s / 60) ++ "m"

/-- Per-agent Talk Time column formatter (lines 237-239): the lambda
`f"{int(x/60)}m" if x < 3600 else f"{x//60}h {x%60}m"` applied to the
total duration in seconds `x`. -/
def talkTimeAgent (x : Nat) : String :=
  if x < 3600 then toString (x / 60) ++ "m"
  else toString (x / 60) ++ "h " ++ toString (x % 60) ++ "m"

/-- Modelled from the spec: the canonical duration rule of section 4.2 —
`minutes = floor(total_seconds/60)`; when `minutes ≤ 60` render
`"{minutes}m"`, else `"{minutes//60}h {minutes%60}m"`.  Kept separate
from the two source-site formatters so they can be compared with it. -/
def formatDurationSpec (s : Nat) : String :=
  if s / 60 ≤ 60 then toString (s / 60) ++ "m"
  else toString (s / 60 / 60) ++ "h " ++ toString (s / 60 % 60) ++ "m"

/-- Sum of the duration column (`filtered_df['duration'].sum()`,
line 200): pandas skips NaN, i.e. a missing duration contributes 0. -/
def sumDuration (df : List CallRow) : Nat :=
  (df.map (fun r => r.duration.getD 0)).sum

/-- Inclusive range test on the derived date column, the boolean mask
`(filtered_df['date'] >= start) & (filtered_df['date'] <= end)` of
line 188: rows with a missing date fail the mask. -/
def dateInRange (s e : Int) (r : CallRow) : Bool :=
  match r.date with
  | some d => decide (s ≤ d) && decide (d ≤ e)
  | none => false

/-- Date filtering (lines 180-188): with no range the table passes
through unchanged; with a range, first drop rows with a missing date
(`notna`), then keep rows inside the inclusive range. -/
def filterByDate (df : List CallRow) (dr : Option (Int × Int)) : List CallRow :=
  match dr with
  | none => df
  | some (s, e) => (df.filter (fun r => r.date.isSome)).filter (dateInRange s e)

/-- Insertion step of the descending-by-count sort used by
`value_counts` (equal counts keep their relative order). -/
def insertCountDesc (p : String × Nat) : List (String × Nat) → List (String × Nat)
  | [] => [p]
  | q :: l => if p.2 ≤ q.2 then q :: insertCountDesc p l else p :: q :: l

/-- Stable insertion sort, descending by count. -/
def sortCountDesc : List (String × Nat) → List (String × Nat)
  | [] => []
  | p :: l => insertCountDesc p (sortCountDesc l)

/-- Grouped counts of a categorical column
(`filtered_df['outcome'].value_counts()`, line 208, and the
`value_counts` sites of `src/sales_dashboard.py`): NaN values are
dropped, each distinct present value is paired with its number of
occurrences, and the pairs are sorted by count descending. -/
def valueCounts (vals : List (Option String)) : List (String × Nat) :=
  sortCountDesc (((vals.filterMap id).dedup).map
    (fun k => (k, (vals.filterMap id).count k)))

/-- Lexicographic code-point comparison of character lists, the order
in which pandas sorts string group keys. -/
def charsLtB : List Char → List Char → Bool
  | [], [] => false
  | [], _ :: _ => true
  | _ :: _, [] => false
  | c :: cs, d :: ds =>
    if c.toNat < d.toNat then true
    else if d.toNat < c.toNat then false
    else charsLtB cs ds

/-- Strict lexicographic order on strings by code point. -/
def strLtB (a b : String) : Bool := charsLtB a.data b.data

/-- Insertion step of the ascending sort over group keys. -/
def insertStrAsc (x : String) : List String → List String
  | [] => [x]
  | y :: l => if strLtB y x then y :: insertStrAsc x l else x :: y :: l

/-- Insertion sort of strings, ascending — pandas `groupby` emits its
groups with keys sorted ascending. -/
def sortStrAsc : List String → List String
  | [] => []
  | x :: l => insertStrAsc x (sortStrAsc l)

/-- The group keys of `filtered_df.groupby('agent')` (line 225): the
distinct non-NaN agent values, sorted ascending. -/
def agentKeys (df : List CallRow) : List String :=
  sortStrAsc ((df.filterMap (fun r => r.agent)).dedup)

/-- The rows of the group for agent `k`. -/
def agentGroup (df : List CallRow) (k : String) : List CallRow :=
  df.filter (fun r => r.agent == some k)

/-- One row of the per-agent performance table (`agent_stats`,
lines 225-230): `totalCalls` is the count of the `id` column over the
group — every fetched row carries `doc.id`, so this equals the group
size; `connections` is `sum(x.isin(connected_outcomes))` over the
group; `totalDuration` the group sum of `duration`. -/
structure AgentStat where
  agent : String
  totalCalls : Nat
  connections : Nat
  totalDuration : Nat
  deriving DecidableEq

/-- The per-agent aggregation `filtered_df.groupby('agent').agg(...)`
(lines 225-230), one `AgentStat` per group key in ascending key order. -/
def agentStats (df : List CallRow) : List AgentStat :=
  (agentKeys df).map (fun k =>
    { agent := k
      totalCalls := (agentGroup df k).length
      connections := countMatching (agentGroup df k) (fun r => r.outcome) connectedOutcomes
      totalDuration := sumDuration (agentGroup df k) })

/-- The per-agent Connection % column (lines 233-236): formatted rate
when the Total Calls cell is positive, `"0%"` otherwise. -/
def connectionPct (s : AgentStat) : String :=
  rate s.connections s.totalCalls

/-- The per-agent Talk Time column (lines 237-239). -/
def talkTimeCol (s : AgentStat) : String :=
  talkTimeAgent s.totalDuration

/-- Insertion step of the sort of the agent table by connections
descending (line 242). -/
def insertConnDesc (s : AgentStat) : List AgentStat → List AgentStat
  | [] => [s]
  | t :: l => if s.connections ≤ t.connections then t :: insertConnDesc s l else s :: t :: l

/-- Sort of the agent table by connections descending (line 242). -/
def sortConnDesc : List AgentStat → List AgentStat
  | [] => []
  | s :: l => insertConnDesc s (sortConnDesc l)

/-- The seven outputs of the `update_dashboard` callback: the four KPI
strings, the two chart data tables (outcome pie, agent bar truncated to
ten), and the agent performance table. -/
structure DashOutput where
  totalCallsText : String
  connectionsText : String
  connectionRateText : String
  talkTimeText : String
  outcomeCounts : List (String × Nat)
  agentCounts : List (String × Nat)
  agentTable : List AgentStat
  deriving DecidableEq

/-- The early-return defaults of line 178: `"0", "0", "0%", "0m"`, two
empty figures and a placeholder table with no rows. -/
def emptyOutput : DashOutput :=
  { totalCallsText := "0"
    connectionsText := "0"
    connectionRateText := "0%"
    talkTimeText := "0m"
    outcomeCounts := []
    agentCounts := []
    agentTable := [] }

/-- The aggregation pipeline of `update_dashboard` (lines 177-272) on a
given dataset and optional date range: empty dataset short-circuits to
the defaults, otherwise filter by date and compute every output. -/
def computeOutputs (df : List CallRow) (dr : Option (Int × Int)) : DashOutput :=
  if df.isEmpty then emptyOutput
  else
    { totalCallsText := toString (totalCount (filterByDate df dr))
      connectionsText :=
        toString (countMatching (filterByDate df dr) (fun r => r.outcome) connectedOutcomes)
      connectionRateText :=
        rate (countMatching (filterByDate df dr) (fun r => r.outcome) connectedOutcomes)
          (totalCount (filterByDate df dr))
      talkTimeText := talkTimeKPI (sumDuration (filterByDate df dr))
      outcomeCounts := valueCounts ((filterByDate df dr).map (fun r => r.outcome))
      agentCounts := (valueCounts ((filterByDate df dr).map (fun r => r.agent))).take 10
      agentTable := sortConnDesc (agentStats (filterByDate df dr)) }

/-- One invocation of the `update_dashboard` callback as a state
transition on the module-level dataset `df` (lines 167-175): when the
refresh button has been clicked or the auto-refresh timer has ticked,
the stored dataset is replaced by a fresh fetch (`fetched` stands for
the fetched table with its dates already re-parsed); otherwise the
stored dataset is kept.  The outputs are computed from the resulting
dataset; the date filter works on a copy (line 181) and never writes
back to the stored dataset. -/
def dashboardStep (df : List CallRow) (refreshClicks autoRefresh : Nat)
    (fetched : List CallRow) (dr : Option (Int × Int)) :
    List CallRow × DashOutput :=
  let df2 := if 0 < refreshClicks ∨ 0 < autoRefresh then fetched else df
  (df2, computeOutputs df2 dr)

/-- The `/api/stats` route of `src/api/index.py` (lines 107-123): when
the Firestore client was never configured (`db` is `None`), `stats`
stays the empty dict; when a client exists, each of the four counts is
fetched under `try`, with `0` substituted on failure.  A count fetch is
modelled as `Except Unit Nat` per collection name. -/
def apiStats (dbc : Option (String → Except Unit Nat)) : List (String × Nat) :=
  match dbc with
  | none => []
  | some fetchCount =>
    [("contacts", ((fetchCount "ghl_contacts").toOption.getD 0)),
     ("opportunities", ((fetchCount "ghl_opportunities").toOption.getD 0)),
     ("pipelines", ((fetchCount "ghl_pipelines").toOption.getD 0)),
     ("users", ((fetchCount "ghl_users").toOption.getD 0))]

/-- The concrete three-record scenario of spec section 8. -/
def scenarioDf : List CallRow :=
  [{ id := "1", agent := some "A", outcome := some "connected", duration := some 120, date := none },
   { id := "2", agent := some "A", outcome := some "no-answer", duration := some 0, date := none },
   { id := "3", agent := some "B", outcome := some "connected", duration := some 300, date := none }]

/-- Membership through the insertion step of the key sort. -/
theorem mem_insertStrAsc {a x : String} {l : List String} :
    a ∈ insertStrAsc x l ↔ a = x ∨ a ∈ l := by
  induction l with
  | nil => simp [insertStrAsc]
  | cons y t ih =>
    simp only [insertStrAsc]
    split
    · simp only [List.mem_cons, ih]
      tauto
    · simp [List.mem_cons]

/-- Sorting the group keys preserves membership. -/
theorem mem_sortStrAsc {a : String} {l : List String} :
    a ∈ sortStrAsc l ↔ a ∈ l := by
  induction l with
  | nil => simp [sortStrAsc]
  | cons x t ih => simp [sortStrAsc, mem_insertStrAsc, ih]

/-- Inserting into the descending-by-count sort adds the count of the
inserted pair to the column sum. -/
theorem sum_snd_insertCountDesc (p : String × Nat) (l : List (String × Nat)) :
    ((insertCountDesc p l).map (fun q => q.2)).sum
      = p.2 + (l.map (fun q => q.2)).sum := by
  induction l with
  | nil => simp [insertCountDesc]
  | cons q t ih =>
    simp only [insertCountDesc]
    split
    · simp only [List.map_cons, List.sum_cons, ih]
      omega
    · simp only [List.map_cons, List.sum_cons]

/-- The descending-by-count sort preserves the sum of the counts. -/
theorem sum_snd_sortCountDesc (l : List (String × Nat)) :
    ((sortCountDesc l).map (fun q => q.2)).sum = (l.map (fun q => q.2)).sum := by
  induction l with
  | nil => rfl
  | cons p t ih =>
    simp only [sortCountDesc, sum_snd_insertCountDesc, ih, List.map_cons, List.sum_cons]

/-- Elements of the insertion are the inserted pair or old elements. -/
theorem mem_insertCountDesc {a p : String × Nat} {l : List (String × Nat)} :
    a ∈ insertCountDesc p l → a = p ∨ a ∈ l := by
  induction l with
  | nil => simp [insertCountDesc]
  | cons q t ih =>
    simp only [insertCountDesc]
    split
    · intro h
      rcases List.mem_cons.mp h with h | h
      · exact Or.inr (List.mem_cons.mpr (Or.inl h))
      · rcases ih h with h | h
        · exact Or.inl h
        · exact Or.inr (List.mem_cons.mpr (Or.inr h))
    · intro h
      rcases List.mem_cons.mp h with h | h
      · exact Or.inl h
      · exact Or.inr h

/-- Insertion preserves the non-increasing-by-count invariant. -/
theorem pairwise_insertCountDesc {p : String × Nat} {l : List (String × Nat)}
    (hl : List.Pairwise (fun a b => b.2 ≤ a.2) l) :
    List.Pairwise (fun a b => b.2 ≤ a.2) (insertCountDesc p l) := by
  induction l with
  | nil => simp [insertCountDesc]
  | cons q t ih =>
    rcases List.pairwise_cons.mp hl with ⟨hq, ht⟩
    simp only [insertCountDesc]
    split
    · rename_i hle
      refine List.pairwise_cons.mpr ⟨?_, ih ht⟩
      intro b hb
      rcases mem_insertCountDesc hb with rfl | hb
      · exact hle
      · exact hq b hb
    · rename_i hgt
      refine List.pairwise_cons.mpr ⟨?_, hl⟩
      intro b hb
      rcases List.mem_cons.mp hb with rfl | hb
      · omega
      · exact le_trans (hq b hb) (by omega)

/-- The descending-by-count sort produces a non-increasing sequence. -/
theorem pairwise_sortCountDesc (l : List (String × Nat)) :
    List.Pairwise (fun a b => b.2 ≤ a.2) (sortCountDesc l) := by
  induction l with
  | nil => simp [sortCountDesc]
  | cons p t ih => exact pairwise_insertCountDesc ih

/-- Dropping the missing values keeps row count minus null count. -/
theorem length_filterMap_somes (vals : List (Option String)) :
    (vals.filterMap id).length = vals.length - vals.countP (fun v => v.isNone) := by
  induction vals with
  | nil => rfl
  | cons v t ih =>
    have hc : t.countP (fun v => v.isNone) ≤ t.length := List.countP_le_length _
    cases v <;> simp [List.filterMap_cons, List.countP_cons] <;> omega

/-- C1: the dashboard-wide Total Talk Time KPI site does render the
canonical duration rule for every nonnegative number of seconds, but
the per-agent Talk Time column does not: at a per-agent duration of
3600 seconds it renders `"60h 0m"` (its hours slot holds minutes and
its minutes slot holds leftover seconds) where the canonical rule
renders `"60m"` — the code at lines 237-239 is a unit slip. -/
theorem talk_time_per_agent_site_bug :
    (∀ s : Nat, talkTimeKPI s = formatDurationSpec s)
    ∧ talkTimeAgent 3600 = "60h 0m"
    ∧ formatDurationSpec 3600 = "60m"
    ∧ talkTimeAgent 7200 = "120h 0m"
    ∧ formatDurationSpec 7200 = "2h 0m" := by
  refine ⟨fun s => ?_, by decide, by decide, by decide, by decide⟩
  by_cases h : s / 60 ≤ 60
  · rw [talkTimeKPI, formatDurationSpec, if_neg (by omega), if_pos h]
  · rw [talkTimeKPI, formatDurationSpec, if_pos (by omega), if_neg h]

/-- C2: on the three-record scenario with no date filter, the
aggregation yields a total count of 3, a connections count of 2, a
connection rate of `"66.7%"`, and per-agent groups
A:(count 2, connections 1, duration 120) and
B:(count 1, connections 1, duration 300). -/
theorem scenario_three_records :
    filterByDate scenarioDf none = scenarioDf
    ∧ totalCount scenarioDf = 3
    ∧ countMatching scenarioDf (fun r => r.outcome) connectedOutcomes = 2
    ∧ rate 2 3 = "66.7%"
    ∧ agentStats scenarioDf =
        [{ agent := "A", totalCalls := 2, connections := 1, totalDuration := 120 },
         { agent := "B", totalCalls := 1, connections := 1, totalDuration := 300 }] :=
  ⟨rfl, rfl, rfl, rfl, rfl⟩

/-- C3: at both rate call sites, a zero denominator yields exactly
`"0%"` for every numerator (the division sits in the untaken branch),
and a positive denominator yields the one-decimal percent string, which
for a zero numerator is `"0.0%"`. -/
theorem rate_zero_denominator (n d : Nat) :
    rate n 0 = "0%"
    ∧ (0 < d → rate n d = fmtPct n d)
    ∧ (0 < d → rate 0 d = "0.0%") := by
  refine ⟨rfl, fun h => by rw [rate, if_pos h], fun h => ?_⟩
  rw [rate, if_pos h]
  have h0 : roundTenths 0 d = 0 := by
    rw [roundTenths]
    simp [Nat.zero_mod, Nat.zero_div, h]
  rw [fmtPct, h0]
  rfl

/-- Witness for C3 at the concrete pair (5, 3). -/
theorem rate_zero_denominator_witness :
    rate 5 0 = "0%" ∧ rate 5 3 = fmtPct 5 3 ∧ rate 0 3 = "0.0%" :=
  ⟨(rate_zero_denominator 5 3).1, (rate_zero_denominator 5 3).2.1 (by decide),
   (rate_zero_denominator 5 3).2.2 (by decide)⟩

/-- C6: on an empty table the callback short-circuits to its defined
defaults for every date range — counts `"0"`, rate `"0%"`, talk time
`"0m"`, grouped outputs empty — instead of raising. -/
theorem empty_table_defaults (dr : Option (Int × Int)) :
    computeOutputs [] dr = emptyOutput := rfl

/-- C7: the count of rows matching a predicate set on any column never
exceeds the total row count of the table. -/
theorem count_matching_le_total (df : List CallRow) (col : CallRow → Option String)
    (pset : List String) : countMatching df col pset ≤ totalCount df :=
  List.length_filter_le _ _

/-- C10: a callback invocation with no refresh trigger leaves the
stored full dataset exactly as it was, for every date range, and a
subsequent invocation with a different range therefore computes its
outputs from the full dataset. -/
theorem stored_dataset_unchanged (df fetched : List CallRow)
    (r1 r2 : Option (Int × Int)) :
    (dashboardStep df 0 0 fetched r1).1 = df
    ∧ (dashboardStep (dashboardStep df 0 0 fetched r1).1 0 0 fetched r2).2
        = computeOutputs df r2 :=
  ⟨rfl, rfl⟩

/-- C4: for every categorical column, the grouped-count sequence is
sorted non-increasing by count, the same holds after any top-N
truncation, and the counts sum (before truncation) to the number of
rows with a non-null value, i.e. the total row count minus the
excluded nulls. -/
theorem value_counts_sorted_partition (vals : List (Option String)) (n : Nat) :
    List.Pairwise (fun a b => b.2 ≤ a.2) (valueCounts vals)
    ∧ List.Pairwise (fun a b => b.2 ≤ a.2) ((valueCounts vals).take n)
    ∧ ((valueCounts vals).map (fun q => q.2)).sum
        = vals.length - vals.countP (fun v => v.isNone) := by
  have hsorted : List.Pairwise (fun a b => b.2 ≤ a.2) (valueCounts vals) :=
    pairwise_sortCountDesc _
  refine ⟨hsorted, hsorted.sublist (List.take_sublist n _), ?_⟩
  rw [valueCounts, sum_snd_sortCountDesc, List.map_map]
  rw [show ((fun (q : String × Nat) => q.2) ∘ fun k => (k, (vals.filterMap id).count k))
        = fun k => (vals.filterMap id).count k from rfl]
  rw [List.sum_map_count_dedup_eq_length, length_filterMap_somes]

/-- C5: date filtering is idempotent — filtering an already-filtered
table by the same inclusive range returns it unchanged — and with no
range supplied the filter returns its input unchanged. -/
theorem filter_by_date_idempotent (df : List CallRow) (s e : Int) :
    filterByDate (filterByDate df (some (s, e))) (some (s, e))
        = filterByDate df (some (s, e))
    ∧ filterByDate df none = df := by
  refine ⟨?_, rfl⟩
  have h1 : (filterByDate df (some (s, e))).filter (fun r => r.date.isSome)
      = filterByDate df (some (s, e)) := by
    apply List.filter_eq_self.mpr
    intro r hr
    have hr2 : r ∈ (df.filter (fun r => r.date.isSome)).filter (dateInRange s e) := hr
    exact (List.mem_filter.mp (List.mem_of_mem_filter hr2)).2
  have h2 : (filterByDate df (some (s, e))).filter (dateInRange s e)
      = filterByDate df (some (s, e)) := by
    apply List.filter_eq_self.mpr
    intro r hr
    have hr2 : r ∈ (df.filter (fun r => r.date.isSome)).filter (dateInRange s e) := hr
    exact (List.mem_filter.mp hr2).2
  show ((filterByDate df (some (s, e))).filter (fun r => r.date.isSome)).filter
        (dateInRange s e)
      = filterByDate df (some (s, e))
  rw [h1, h2]

/-- C8 counterexample: with the record source unconfigured (the
Firestore client stayed None), the /api/stats response is the empty
object — it contains none of the four counts — refuting the claim that
every request receives the four counts with 0 on failure. -/
theorem api_stats_unconfigured_empty :
    apiStats none = []
    ∧ (apiStats none).lookup "contacts" = none
    ∧ (apiStats none).length ≠ 4 :=
  ⟨rfl, rfl, by decide⟩

/-- C8 amended: when the record source client is configured, the
/api/stats response contains exactly the four counts (contacts,
opportunities, pipelines, users) as integers, with 0 substituted for
any count whose fetch fails; when the client is unconfigured, the
response is the empty object. -/
theorem api_stats_configured (f : String → Except Unit Nat) :
    (apiStats (some f)).map Prod.fst = ["contacts", "opportunities", "pipelines", "users"]
    ∧ (f "ghl_contacts" = Except.error () →
        (apiStats (some f)).lookup "contacts" = some 0)
    ∧ (f "ghl_opportunities" = Except.error () →
        (apiStats (some f)).lookup "opportunities" = some 0)
    ∧ (f "ghl_pipelines" = Except.error () →
        (apiStats (some f)).lookup "pipelines" = some 0)
    ∧ (f "ghl_users" = Except.error () →
        (apiStats (some f)).lookup "users" = some 0)
    ∧ (∀ n, f "ghl_contacts" = Except.ok n →
        (apiStats (some f)).lookup "contacts" = some n)
    ∧ apiStats none = [] := by
  refine ⟨rfl, fun h => ?_, fun h => ?_, fun h => ?_, fun h => ?_, fun n h => ?_, rfl⟩ <;>
    simp [apiStats, h, List.lookup, Except.toOption]

/-- Witness for C8 amended: an all-failing fetch yields the four keys
with value 0, and a succeeding contacts fetch yields its count. -/
theorem api_stats_configured_witness :
    (apiStats (some (fun _ => Except.error ()))).map Prod.fst
        = ["contacts", "opportunities", "pipelines", "users"]
    ∧ (apiStats (some (fun _ => Except.error ()))).lookup "contacts" = some 0
    ∧ (apiStats (some (fun _ => Except.ok 7))).lookup "contacts" = some 7 :=
  ⟨(api_stats_configured (fun _ => Except.error ())).1,
   (api_stats_configured (fun _ => Except.error ())).2.1 rfl,
   (api_stats_configured (fun _ => Except.ok 7)).2.2.2.2.2.1 7 rfl⟩

/-- C9: every row of the per-agent performance table comes from a
nonempty group, so its Total Calls is at least 1 and the Connection %
formula always takes the division branch — the "0%" fallback for a
zero Total Calls is unreachable. -/
theorem agent_table_positive_calls (df : List CallRow) (s : AgentStat)
    (hs : s ∈ agentStats df) :
    1 ≤ s.totalCalls ∧ connectionPct s = fmtPct s.connections s.totalCalls := by
  obtain ⟨k, hk, rfl⟩ := List.mem_map.mp hs
  have hk2 : k ∈ (df.filterMap (fun r => r.agent)).dedup := mem_sortStrAsc.mp hk
  obtain ⟨r, hr, hra⟩ := List.mem_filterMap.mp (List.mem_dedup.mp hk2)
  have hmem : r ∈ agentGroup df k :=
    List.mem_filter.mpr ⟨hr, by simp [hra]⟩
  have hpos : 0 < (agentGroup df k).length :=
    List.length_pos.mpr (List.ne_nil_of_mem hmem)
  refine ⟨hpos, ?_⟩
  simp only [connectionPct, rate]
  rw [if_pos]
  exact hpos

/-- Witness for C9 on a one-row table with a single agent group. -/
theorem agent_table_positive_calls_witness :
    1 ≤ (AgentStat.mk "A" 1 1 120).totalCalls
    ∧ connectionPct (AgentStat.mk "A" 1 1 120) = fmtPct 1 1 :=
  agent_table_positive_calls
    [{ id := "1", agent := some "A", outcome := some "connected",
       duration := some 120, date := none }]
    (AgentStat.mk "A" 1 1 120) (by decide)

end HappySolar
